import Mathlib

/-!
Verification development for the Urdu-PDF-to-Arabic pipeline.

The repository consists of `app.py` (the orchestration loop, master-document
style initialization, end-of-batch summary) and `backend.py` (text cleaning
helpers, digit conversion, Gemini page processing).  The extraction,
transform and document-building primitives `extract_text_from_pdf`,
`process_text_with_gemini` and `append_text_to_document` are called by
`app.py` but their bodies are not part of the provided sources; those are
modelled from the specification (sections 3, 4.1-4.4), as marked in their
doc comments.  Everything else is embedded directly from the Python source.
-/

namespace UrduPdf

/-! ## String helpers, embedded over the character list of a string -/

/-- Python `s.strip() == ""` (and "after trimming whitespace, empty"): the
text is blank when every character is whitespace. -/
def isBlank (s : String) : Bool :=
  s.data.all Char.isWhitespace

/-- Python `s.startswith("Error:")`. -/
def startsWithError (s : String) : Bool :=
  s.data.take 6 = "Error:".data

/-- Splitting a text into lines at the newline character. -/
def linesOf (s : String) : List String :=
  (s.data.splitOn '\n').map String.mk

/-! ## TextExtractor (spec section 4.1), data model (spec section 3) -/

/-- Extraction method tags of the ExtractionResult data model. -/
inductive Method where
  | structural
  | localOCR
  | cloudOCR
  | none
deriving DecidableEq

/-- Status of an extraction attempt. -/
inductive ExtStatus where
  | success
  | emptyText
  | failure
deriving DecidableEq

/-- ExtractionResult record from the spec data model (section 3). -/
structure ExtractionResult where
  status : ExtStatus
  text : Option String
  errorDetail : Option String
  methodUsed : Method
deriving DecidableEq

/-- Outcome of running one extraction method: the method returns text,
raises an exception, or fails because a dependency or credential needed by
a remote service is missing. -/
inductive MethodOutcome where
  | ok (text : String)
  | exn (msg : String)
  | configErr (msg : String)
deriving DecidableEq

/-- Modelled from the spec: a PDF byte input, abstracted by what each of the
three extraction collaborators (structural text-layer parser, local OCR
engine, cloud document-OCR service) would produce on it. -/
structure PdfSource where
  structural : MethodOutcome
  localOCR : MethodOutcome
  cloudOCR : MethodOutcome
deriving DecidableEq

/-- Modelled from the spec: terminal state once no method produced non-empty
text.  If at least one method ran and merely returned whitespace the result
is EmptyText; if every method threw, the result is Failure carrying the last
exception message (spec section 4.1, items 4 and the all-throw rule). -/
def afterAllMethods (lastErr : Option String) (sawEmpty : Bool) : ExtractionResult :=
  if sawEmpty then
    { status := ExtStatus.emptyText, text := some (""), errorDetail := none,
      methodUsed := Method.none }
  else
    { status := ExtStatus.failure, text := none, errorDetail := lastErr,
      methodUsed := Method.none }

/-- Modelled from the spec: cloud OCR step, the third and last method.  A
missing-dependency or missing-credential condition for this remote method
short-circuits to Failure with a descriptive errorDetail (spec section 4.1).
The second component of the result records which methods were invoked. -/
def extractCloud (p : PdfSource) (invoked : List Method) (lastErr : Option String)
    (sawEmpty : Bool) : ExtractionResult × List Method :=
  match p.cloudOCR with
  | MethodOutcome.ok t =>
      if isBlank t then (afterAllMethods lastErr true, invoked ++ [Method.cloudOCR])
      else ({ status := ExtStatus.success, text := some t, errorDetail := none,
              methodUsed := Method.cloudOCR }, invoked ++ [Method.cloudOCR])
  | MethodOutcome.exn m => (afterAllMethods (some m) sawEmpty, invoked ++ [Method.cloudOCR])
  | MethodOutcome.configErr m =>
      ({ status := ExtStatus.failure, text := none, errorDetail := some m,
         methodUsed := Method.none }, invoked ++ [Method.cloudOCR])

/-- Modelled from the spec: local OCR step, the second method.  An exception
(including a missing local OCR dependency) is caught and control falls
through to the cloud method (spec section 4.1). -/
def extractLocal (p : PdfSource) (invoked : List Method) (lastErr : Option String)
    (sawEmpty : Bool) : ExtractionResult × List Method :=
  match p.localOCR with
  | MethodOutcome.ok t =>
      if isBlank t then extractCloud p (invoked ++ [Method.localOCR]) lastErr true
      else ({ status := ExtStatus.success, text := some t, errorDetail := none,
              methodUsed := Method.localOCR }, invoked ++ [Method.localOCR])
  | MethodOutcome.exn m => extractCloud p (invoked ++ [Method.localOCR]) (some m) sawEmpty
  | MethodOutcome.configErr m => extractCloud p (invoked ++ [Method.localOCR]) (some m) sawEmpty

/-- Modelled from the spec: `extract_text_from_pdf` is called by `app.py` but
its body is not among the provided sources; this is the `extract` contract of
spec section 4.1.  Methods are tried in the fixed order structural, local
OCR, cloud OCR, stopping at the first whose output is non-empty after
trimming; the second component lists the methods actually invoked, in
order. -/
def extract (p : PdfSource) : ExtractionResult × List Method :=
  match p.structural with
  | MethodOutcome.ok t =>
      if isBlank t then extractLocal p [Method.structural] none true
      else ({ status := ExtStatus.success, text := some t, errorDetail := none,
              methodUsed := Method.structural }, [Method.structural])
  | MethodOutcome.exn m => extractLocal p [Method.structural] (some m) false
  | MethodOutcome.configErr m => extractLocal p [Method.structural] (some m) false

/-! ## TextTransformer (spec section 4.2) -/

/-- Status of a transform attempt (spec section 3, TransformResult). -/
inductive TransStatus where
  | success
  | blocked
  | empty
  | failure
deriving DecidableEq

/-- TransformResult record from the spec data model (section 3). -/
structure TransformResult where
  status : TransStatus
  text : Option String
  reason : Option String
deriving DecidableEq

/-- Response of the remote generative-text service (spec section 6):
text, a policy block with a reason, no content, or a transport error. -/
inductive ServiceResponse where
  | text (t : String)
  | blocked (reason : String)
  | empty
  | err (msg : String)
deriving DecidableEq

/-- Modelled from the spec: `process_text_with_gemini` is called by `app.py`
but its body is not among the provided sources; this is the `transform`
contract of spec section 4.2.  The remote service is passed in as a function
of (modelId, credentials, prompt); the second component of the result counts
how many calls were made to it.  Empty input text returns Empty immediately
with zero calls. -/
def transform (text rules modelId credentials : String)
    (service : String → String → String → ServiceResponse) : TransformResult × Nat :=
  if text = "" then
    ({ status := TransStatus.empty, text := some (""), reason := none }, 0)
  else
    match service modelId credentials (rules ++ "\n" ++ text) with
    | ServiceResponse.text t =>
        ({ status := TransStatus.success, text := some t, reason := none }, 1)
    | ServiceResponse.blocked r =>
        ({ status := TransStatus.blocked, text := none, reason := some r }, 1)
    | ServiceResponse.empty =>
        ({ status := TransStatus.empty, text := some (""), reason := none }, 1)
    | ServiceResponse.err m =>
        ({ status := TransStatus.failure, text := none, reason := some m }, 1)

/-! ## DocumentBuilder and DocumentComposer (spec sections 4.3 and 4.4) -/

/-- Paragraph alignment values used by the document model. -/
inductive Align where
  | left
  | right
  | center
deriving DecidableEq

/-- A paragraph of the document model, with the run and paragraph formatting
attributes the spec cares about. -/
structure Para where
  text : String
  italic : Bool
  rtl : Bool
  alignment : Align
deriving DecidableEq

/-- A document body block: a paragraph or an explicit page break. -/
inductive Block where
  | para (p : Para)
  | pageBreak
deriving DecidableEq

/-- A document body is an ordered list of blocks. -/
abbrev Doc := List Block

/-- Modelled from the spec: placeholder text naming the source file,
emitted for an empty payload (spec section 4.3). -/
def placeholderText (sourceName : String) : String :=
  "[No content extracted for " ++ sourceName ++ "]"

/-- Modelled from the spec: `build` of spec section 4.3, the paragraph list
rendered for a text payload.  Empty text yields a single italic placeholder
paragraph naming the source file; non-empty text yields one paragraph per
non-blank line, each right-to-left and right-aligned. -/
def buildParas (text sourceName : String) : List Para :=
  if text = "" then
    [{ text := placeholderText sourceName, italic := true, rtl := true,
       alignment := Align.right }]
  else
    ((linesOf text).filter (fun l => !(isBlank l))).map
      (fun l => { text := l, italic := false, rtl := true, alignment := Align.right })

/-- Modelled from the spec: `append_text_to_document` is called by `app.py`
but its body is not among the provided sources; per spec section 4.4, when
the unit is not the first an explicit page break is inserted at the current
end of the document before the unit content is appended. -/
def append_text_to_document (doc : Doc) (text sourceName : String)
    (is_first_file : Bool) : Doc :=
  (if is_first_file then doc else doc ++ [Block.pageBreak]) ++
    (buildParas text sourceName).map Block.para

/-- One merge unit: a source name and its text payload.  Ordinal order is
the list order of the sequence handed to `merge`. -/
structure MergeUnit where
  sourceName : String
  text : String
deriving DecidableEq

/-- The blocks contributed by one unit to the composite document. -/
def unitBlocks (u : MergeUnit) : Doc :=
  (buildParas u.text u.sourceName).map Block.para

/-- Errors of the orchestration layer (spec section 7). -/
inductive ProcError where
  | invalidInput
  | missingApiKey
deriving DecidableEq

/-- Tail of the merge loop: every unit after the first is appended with
`is_first_file = false`, mirroring the loop in `app.py` which passes
`is_first_file = (i == 0)` to `append_text_to_document`. -/
def mergeFrom (doc : Doc) : List MergeUnit → Doc
  | [] => doc
  | u :: us => mergeFrom (append_text_to_document doc u.text u.sourceName false) us

/-- Modelled from the spec: `merge` of spec section 4.4.  The empty sequence
is rejected with InvalidInput; otherwise the first unit is appended with
`is_first_file = true` and each later unit with `is_first_file = false`,
as the processing loop in `app.py` does. -/
def merge : List MergeUnit → Except ProcError Doc
  | [] => Except.error ProcError.invalidInput
  | u :: us => Except.ok (mergeFrom (append_text_to_document [] u.text u.sourceName true) us)

/-- Number of explicit page breaks in a document body. -/
def countBreaks (d : Doc) : Nat :=
  d.countP (fun b => match b with | Block.pageBreak => true | _ => false)

/-! ## The per-file processing loop of `app.py` (lines 332-472) -/

/-- What `backend.extract_text_from_pdf` does for one file, as observed by
the caller in `app.py`: it either raises, or returns `None` or a string. -/
inductive ExtractCall where
  | threw (msg : String)
  | returned (r : Option String)
deriving DecidableEq

/-- What `backend.process_text_with_gemini` does for one file, as observed
by the caller in `app.py`: it either raises, or returns `None` or a
string. -/
inductive GeminiCall where
  | threw (msg : String)
  | returned (r : Option String)
deriving DecidableEq

/-- What `backend.append_text_to_document` does for one file, as observed by
the caller in `app.py`: it either raises, or returns a success boolean. -/
inductive AppendCall where
  | threw (msg : String)
  | returned (ok : Bool)
deriving DecidableEq

/-- One source file together with the behaviour of the three backend calls
the processing loop of `app.py` makes on it. -/
structure FileEnv where
  name : String
  extractCall : ExtractCall
  geminiCall : GeminiCall
  appendCall : AppendCall
deriving DecidableEq

/-- Disposition of one file after its loop iteration in `app.py`:
the error flags, whether the file was appended to the master document, and
the `processed_text` that was handed to `append_text_to_document` (the empty
string when a placeholder is used). -/
structure FileReport where
  name : String
  extractionError : Bool
  geminiError : Bool
  appendError : Bool
  appended : Bool
  processedText : String
deriving DecidableEq

/-- A report for a file whose extraction failed critically: `app.py` skips
both the Gemini call and the append for it. -/
def skippedReport (name : String) : FileReport :=
  { name := name, extractionError := true, geminiError := false,
    appendError := false, appended := false, processedText := "" }

/-- The Gemini step of one loop iteration in `app.py` (lines 372-393):
whitespace-only extracted text skips the call and keeps `processed_text`
empty without a Gemini error; otherwise an exception, a `None` return, or an
`Error:`-prefixed result degrades `processed_text` to the empty string with
the Gemini error flag set, and any other result becomes `processed_text`.
Returns (`processed_text`, `gemini_error_occurred`). -/
def geminiStep (raw : String) (gc : GeminiCall) : String × Bool :=
  if isBlank raw then ("", false)
  else
    match gc with
    | GeminiCall.threw _ => ("", true)
    | GeminiCall.returned none => ("", true)
    | GeminiCall.returned (some t) =>
        if startsWithError t then ("", true) else (t, false)

/-- One iteration of the processing loop of `app.py` (lines 332-434).
Extraction errors (an exception, a `None` return, or an `Error:`-prefixed
string) skip the file entirely; otherwise the Gemini step computes
`processed_text`, and the append outcome sets `appended`/`appendError`. -/
def processFile (env : FileEnv) : FileReport :=
  match env.extractCall with
  | ExtractCall.threw _ => skippedReport env.name
  | ExtractCall.returned none => skippedReport env.name
  | ExtractCall.returned (some raw) =>
      if startsWithError raw then skippedReport env.name
      else
        match env.appendCall with
        | AppendCall.threw _ =>
            { name := env.name, extractionError := false,
              geminiError := (geminiStep raw env.geminiCall).2,
              appendError := true, appended := false,
              processedText := (geminiStep raw env.geminiCall).1 }
        | AppendCall.returned ok =>
            { name := env.name, extractionError := false,
              geminiError := (geminiStep raw env.geminiCall).2,
              appendError := !ok, appended := ok,
              processedText := (geminiStep raw env.geminiCall).1 }

/-- The processing loop of `app.py` over the ordered file list: every file is
processed in order and `files_successfully_appended` is incremented exactly
when the append succeeded.  Returns the per-file reports and the final
counter, which is the number reported by the end-of-batch summary
("Document created with translations from {files_successfully_appended}
source file(s)", lines 450-463). -/
def processBatch : List FileEnv → List FileReport × Nat
  | [] => ([], 0)
  | e :: es =>
      let r := processFile e
      let rest := processBatch es
      (r :: rest.1, (if r.appended then 1 else 0) + rest.2)

/-- A file contributed real content when it was appended with non-blank
`processed_text` (otherwise `append_text_to_document` renders only the
placeholder paragraph for it). -/
def contributedRealContent (r : FileReport) : Bool :=
  r.appended && !(isBlank r.processedText)

/-- Number of files of a batch that contributed real content to the output. -/
def realContentCount (envs : List FileEnv) : Nat :=
  (processBatch envs).1.countP contributedRealContent

/-- The guards around the processing loop in `app.py` (lines 272-290): an
empty file list aborts with a warning before any processing and no document
is produced; a missing API key likewise aborts. -/
def runProcessing (files : List FileEnv) (apiKey : String) :
    Except ProcError (List FileReport × Nat) :=
  if files.isEmpty then Except.error ProcError.invalidInput
  else if apiKey = "" then Except.error ProcError.missingApiKey
  else Except.ok (processBatch files)

/-! ## Master document style initialization (`app.py` lines 293-315) -/

/-- The default (Normal) style attributes of a document that the style
initialization in `app.py` touches: the Latin font name, the run-level rtl
flag, the complex-script font (the `w:cs` attribute of `w:rFonts`), the
default paragraph alignment and the paragraph right-to-left flag. -/
structure NormalStyle where
  fontName : Option String
  fontRtl : Bool
  csFont : Option String
  alignment : Option Align
  rightToLeft : Bool
deriving DecidableEq

/-- The Normal style of a freshly constructed `Document()` before `app.py`
touches it: no fonts set, left-to-right, no explicit alignment. -/
def freshNormalStyle : NormalStyle :=
  { fontName := none, fontRtl := false, csFont := none, alignment := none,
    rightToLeft := false }

/-- The style initialization of the master document in `app.py` lines
295-314: `font.name = Arial`, `font.rtl = True`, the `w:cs` attribute of
`w:rFonts` set to `Arial`, paragraph alignment RIGHT and
`right_to_left = True`, applied to whatever Normal style the incoming
document has. -/
def initializeMasterStyles (s : NormalStyle) : NormalStyle :=
  let s1 := { s with fontName := some ("Arial") }
  let s2 := { s1 with fontRtl := true }
  let s3 := { s2 with csFont := some ("Arial") }
  let s4 := { s3 with alignment := some Align.right }
  { s4 with rightToLeft := true }

/-- The Normal style of the master (composite) document in `app.py`. -/
def masterStyle : NormalStyle :=
  initializeMasterStyles freshNormalStyle

/-! ## Digit conversion (`backend.py` lines 17-26) -/

/-- The digit mapping of `convert_english_to_arabic_digits` in `backend.py`,
in its insertion (iteration) order. -/
def digit_mapping : List (Char × Char) :=
  [('0', '٠'), ('1', '١'), ('2', '٢'), ('3', '٣'), ('4', '٤'),
   ('5', '٥'), ('6', '٦'), ('7', '٧'), ('8', '٨'), ('9', '٩')]

/-- Python `text.replace(eng, arb)` for single-character arguments: every
occurrence of `eng` is replaced by `arb`. -/
def replaceChar (eng arb : Char) (s : List Char) : List Char :=
  s.map (fun c => if c = eng then arb else c)

/-- `convert_english_to_arabic_digits` of `backend.py`: for each pair of the
mapping, in order, replace the English digit by the Arabic digit.  Text is
embedded as its character list. -/
def convert_english_to_arabic_digits (s : List Char) : List Char :=
  digit_mapping.foldl (fun acc p => replaceChar p.1 p.2 acc) s

/-- The pointwise digit translation: an ASCII digit goes to the
corresponding Arabic-Indic digit, every other character is unchanged. -/
def arabicDigitOf (c : Char) : Char :=
  if c = '0' then '٠' else if c = '1' then '١' else if c = '2' then '٢'
  else if c = '3' then '٣' else if c = '4' then '٤' else if c = '5' then '٥'
  else if c = '6' then '٦' else if c = '7' then '٧' else if c = '8' then '٨'
  else if c = '9' then '٩' else c

/-! ## Helper lemmas -/

lemma isBlank_empty_eq : isBlank "" = true := rfl

lemma ne_empty_of_isBlank_false {t : String} (h : isBlank t = false) : t ≠ "" := by
  intro he
  rw [he] at h
  exact absurd h (by decide)

/-- A left fold of single-character replacements is the pointwise map of the
folded character translation. -/
lemma foldl_replaceChar_eq_map (ps : List (Char × Char)) (s : List Char) :
    ps.foldl (fun acc p => replaceChar p.1 p.2 acc) s
      = s.map (fun c => ps.foldl (fun a p => if a = p.1 then p.2 else a) c) := by
  induction ps generalizing s with
  | nil => simp
  | cons p ps ih =>
      rw [List.foldl_cons, ih, replaceChar, List.map_map]
      rfl

/-- Folding the digit mapping over one character is `arabicDigitOf`. -/
lemma digit_mapping_foldl_eq (c : Char) :
    digit_mapping.foldl (fun a p => if a = p.1 then p.2 else a) c = arabicDigitOf c := by
  by_cases h0 : c = '0'
  · subst h0; decide
  by_cases h1 : c = '1'
  · subst h1; decide
  by_cases h2 : c = '2'
  · subst h2; decide
  by_cases h3 : c = '3'
  · subst h3; decide
  by_cases h4 : c = '4'
  · subst h4; decide
  by_cases h5 : c = '5'
  · subst h5; decide
  by_cases h6 : c = '6'
  · subst h6; decide
  by_cases h7 : c = '7'
  · subst h7; decide
  by_cases h8 : c = '8'
  · subst h8; decide
  by_cases h9 : c = '9'
  · subst h9; decide
  simp [digit_mapping, arabicDigitOf, h0, h1, h2, h3, h4, h5, h6, h7, h8, h9]

lemma convert_eq_map (s : List Char) :
    convert_english_to_arabic_digits s = s.map arabicDigitOf := by
  rw [convert_english_to_arabic_digits, foldl_replaceChar_eq_map]
  exact List.map_congr_left (fun c _ => digit_mapping_foldl_eq c)

/-- The pointwise digit translation is idempotent: the Arabic-Indic digits
are not ASCII digits, so a second pass leaves them alone. -/
lemma arabicDigitOf_idem (c : Char) : arabicDigitOf (arabicDigitOf c) = arabicDigitOf c := by
  by_cases h0 : c = '0'
  · subst h0; decide
  by_cases h1 : c = '1'
  · subst h1; decide
  by_cases h2 : c = '2'
  · subst h2; decide
  by_cases h3 : c = '3'
  · subst h3; decide
  by_cases h4 : c = '4'
  · subst h4; decide
  by_cases h5 : c = '5'
  · subst h5; decide
  by_cases h6 : c = '6'
  · subst h6; decide
  by_cases h7 : c = '7'
  · subst h7; decide
  by_cases h8 : c = '8'
  · subst h8; decide
  by_cases h9 : c = '9'
  · subst h9; decide
  have hc : arabicDigitOf c = c := by
    simp [arabicDigitOf, h0, h1, h2, h3, h4, h5, h6, h7, h8, h9]
  rw [hc, hc]

/-- The blocks of one unit contain no page break. -/
lemma countBreaks_unitBlocks (u : MergeUnit) : countBreaks (unitBlocks u) = 0 := by
  simp [countBreaks, unitBlocks, List.countP_map]

lemma countBreaks_append (a b : Doc) :
    countBreaks (a ++ b) = countBreaks a + countBreaks b :=
  List.countP_append _ a b

lemma countBreaks_cons_break (d : Doc) :
    countBreaks (Block.pageBreak :: d) = countBreaks d + 1 := by
  simp [countBreaks, List.countP_cons]

/-- Closed form of the merge loop tail: each remaining unit contributes a
page break followed by its blocks. -/
lemma mergeFrom_eq (us : List MergeUnit) : ∀ doc : Doc,
    mergeFrom doc us = doc ++ us.flatMap (fun v => Block.pageBreak :: unitBlocks v) := by
  induction us with
  | nil => intro doc; simp [mergeFrom]
  | cons u us ih =>
      intro doc
      rw [mergeFrom, ih]
      simp [append_text_to_document, unitBlocks]

lemma countBreaks_flatMap (us : List MergeUnit) :
    countBreaks (us.flatMap (fun v => Block.pageBreak :: unitBlocks v)) = us.length := by
  induction us with
  | nil => rfl
  | cons u us ih =>
      rw [List.flatMap_cons, List.cons_append, countBreaks_cons_break, countBreaks_append,
        countBreaks_unitBlocks, ih, List.length_cons]
      omega

/-! ## Claim theorems -/

/-- C10: `convert_english_to_arabic_digits` replaces each of the ten ASCII
digits by the corresponding Arabic-Indic digit and leaves every other
character unchanged (it equals the pointwise map of `arabicDigitOf`, which
fixes every non-digit); the output has the same length as the input, and the
function is idempotent. -/
theorem c10_convert_english_to_arabic_digits (s : List Char) :
    convert_english_to_arabic_digits s = s.map arabicDigitOf
  ∧ (convert_english_to_arabic_digits s).length = s.length
  ∧ convert_english_to_arabic_digits (convert_english_to_arabic_digits s)
      = convert_english_to_arabic_digits s
  ∧ (∀ p, p ∈ digit_mapping → arabicDigitOf p.1 = p.2)
  ∧ (∀ c : Char, (∀ p, p ∈ digit_mapping → c ≠ p.1) → arabicDigitOf c = c) := by
  refine ⟨convert_eq_map s, ?_, ?_, ?_, ?_⟩
  · rw [convert_eq_map, List.length_map]
  · rw [convert_eq_map, convert_eq_map, List.map_map]
    exact List.map_congr_left (fun c _ => arabicDigitOf_idem c)
  · intro p hp
    fin_cases hp <;> decide
  · intro c hc
    have h0 := hc ('0', '٠') (by decide)
    have h1 := hc ('1', '١') (by decide)
    have h2 := hc ('2', '٢') (by decide)
    have h3 := hc ('3', '٣') (by decide)
    have h4 := hc ('4', '٤') (by decide)
    have h5 := hc ('5', '٥') (by decide)
    have h6 := hc ('6', '٦') (by decide)
    have h7 := hc ('7', '٧') (by decide)
    have h8 := hc ('8', '٨') (by decide)
    have h9 := hc ('9', '٩') (by decide)
    simp only at h0 h1 h2 h3 h4 h5 h6 h7 h8 h9
    simp [arabicDigitOf, h0, h1, h2, h3, h4, h5, h6, h7, h8, h9]

/-- C10 witness: a concrete evaluation through the theorem. -/
theorem c10_witness :
    convert_english_to_arabic_digits ("a1".data) = "a١".data ∧ arabicDigitOf 'x' = 'x' := by
  constructor
  · rw [(c10_convert_english_to_arabic_digits ("a1".data)).1]
    decide
  · exact (c10_convert_english_to_arabic_digits []).2.2.2.2 'x' (by decide)

/-- C3: merging a non-empty sequence of units yields the first unit's blocks
followed, for each subsequent unit, by exactly one page break immediately
before that unit's blocks; the composite holds exactly n-1 page breaks for
n units, and a single-unit merge holds zero inserted page breaks. -/
theorem c3_merge_page_breaks (u : MergeUnit) (us : List MergeUnit) :
    merge (u :: us)
      = Except.ok (unitBlocks u ++ us.flatMap (fun v => Block.pageBreak :: unitBlocks v))
  ∧ countBreaks (unitBlocks u ++ us.flatMap (fun v => Block.pageBreak :: unitBlocks v))
      = (u :: us).length - 1
  ∧ merge [u] = Except.ok (unitBlocks u)
  ∧ countBreaks (unitBlocks u) = 0 := by
  have hmain : merge (u :: us)
      = Except.ok (unitBlocks u ++ us.flatMap (fun v => Block.pageBreak :: unitBlocks v)) := by
    rw [merge, mergeFrom_eq]
    simp [append_text_to_document, unitBlocks]
  refine ⟨hmain, ?_, ?_, countBreaks_unitBlocks u⟩
  · rw [countBreaks_append, countBreaks_unitBlocks, countBreaks_flatMap]
    simp
  · have h := hmain
    rw [merge, mergeFrom_eq] at *
    simp [append_text_to_document, unitBlocks, merge, mergeFrom]

/-- C4: transform called with empty text returns Empty immediately and makes
zero calls to the remote generative-text service, for every rules string,
model id, credential string and service behaviour. -/
theorem c4_transform_empty_zero_calls (rules modelId credentials : String)
    (service : String → String → String → ServiceResponse) :
    transform "" rules modelId credentials service
      = ({ status := TransStatus.empty, text := some (""), reason := none }, 0) := by
  simp [transform]

/-- C8: build on empty text produces exactly one italic placeholder
paragraph whose text names the source file (and, being a total function,
never fails on empty input); build on non-empty text emits one paragraph per
non-blank line; and every paragraph build emits is right-to-left and
right-aligned. -/
theorem c8_build_paragraphs (src text : String) :
    buildParas "" src
      = [{ text := placeholderText src, italic := true, rtl := true,
           alignment := Align.right }]
  ∧ (¬ text = "" → buildParas text src
      = ((linesOf text).filter (fun l => !(isBlank l))).map
          (fun l => { text := l, italic := false, rtl := true, alignment := Align.right }))
  ∧ (∀ p, p ∈ buildParas text src → p.rtl = true ∧ p.alignment = Align.right) := by
  refine ⟨by simp [buildParas], fun h => by simp [buildParas, h], ?_⟩
  intro p hp
  by_cases h : text = ""
  · rw [h] at hp
    simp [buildParas] at hp
    rw [hp]
    exact ⟨rfl, rfl⟩
  · simp [buildParas, h] at hp
    obtain ⟨l, _, hl⟩ := hp
    rw [← hl]
    exact ⟨rfl, rfl⟩

/-- C8 witness: concrete evaluations through the theorem. -/
theorem c8_witness :
    buildParas ("line1\nline2") ("file.pdf")
      = [{ text := ("line1"), italic := false, rtl := true, alignment := Align.right },
         { text := ("line2"), italic := false, rtl := true, alignment := Align.right }]
  ∧ ({ text := ("line1"), italic := false, rtl := true,
       alignment := Align.right } : Para).rtl = true := by
  constructor
  · rw [(c8_build_paragraphs ("file.pdf") ("line1\nline2")).2.1 (by decide)]
    decide
  · exact ((c8_build_paragraphs ("file.pdf") ("line1\nline2")).2.2
      { text := ("line1"), italic := false, rtl := true, alignment := Align.right }
      (by decide)).1

/-- C9: the style initialization applied to the master document in `app.py`
yields, for any incoming Normal style, paragraph alignment right, paragraph
direction right-to-left (and the run-level rtl flag), and a complex-script
font attribute explicitly set to the same family as the Latin font
attribute; concretely the master document's Normal style has both set to
Arial. -/
theorem c9_master_document_styles (s : NormalStyle) :
    (initializeMasterStyles s).alignment = some Align.right
  ∧ (initializeMasterStyles s).rightToLeft = true
  ∧ (initializeMasterStyles s).fontRtl = true
  ∧ (initializeMasterStyles s).csFont = (initializeMasterStyles s).fontName
  ∧ masterStyle.csFont = some ("Arial")
  ∧ masterStyle.fontName = some ("Arial") := by
  refine ⟨rfl, rfl, rfl, rfl, rfl, rfl⟩

/-- C7: merge applied to the empty sequence of units fails immediately with
InvalidInput, as does the surrounding orchestration of `app.py` on an empty
file list; a composite document is only ever returned for a non-empty
sequence. -/
theorem c7_merge_empty_invalid_input :
    merge ([] : List MergeUnit) = Except.error ProcError.invalidInput
  ∧ (∀ apiKey : String, runProcessing [] apiKey = Except.error ProcError.invalidInput)
  ∧ (∀ us d, merge us = Except.ok d → us ≠ [])
  ∧ (∀ files apiKey out, runProcessing files apiKey = Except.ok out → files ≠ []) := by
  refine ⟨rfl, fun _ => rfl, ?_, ?_⟩
  · intro us d h hus
    rw [hus] at h
    exact absurd h (by simp [merge])
  · intro files apiKey out h hfiles
    rw [hfiles] at h
    simp [runProcessing] at h

/-- C7 witness: a single-unit merge does return a document, so the non-empty
conclusion of the theorem applies to it. -/
theorem c7_witness :
    merge ([] : List MergeUnit) = Except.error ProcError.invalidInput
  ∧ ([{ sourceName := ("a"), text := ("t") }] : List MergeUnit) ≠ [] := by
  constructor
  · exact c7_merge_empty_invalid_input.1
  · exact c7_merge_empty_invalid_input.2.2.1
      [{ sourceName := ("a"), text := ("t") }]
      (unitBlocks { sourceName := ("a"), text := ("t") }) rfl

/-- C1: extract tries the methods in the fixed order structural, local OCR,
cloud OCR, stopping at the first whose trimmed output is non-empty and
returning Success tagged with that method.  A PDF with a non-empty text
layer returns Success/Structural with only the structural method invoked; an
image-only PDF (blank text layer) with renderable glyphs falls through to
Success/LocalOCR, or to Success/CloudOCR when local OCR also yields nothing
non-blank. -/
theorem c1_extract_fallback_chain (p : PdfSource) :
    (∀ t, p.structural = MethodOutcome.ok t → isBlank t = false →
        extract p = ({ status := ExtStatus.success, text := some t, errorDetail := none,
                       methodUsed := Method.structural }, [Method.structural]))
  ∧ (∀ t u, p.structural = MethodOutcome.ok t → isBlank t = true →
        p.localOCR = MethodOutcome.ok u → isBlank u = false →
        extract p = ({ status := ExtStatus.success, text := some u, errorDetail := none,
                       methodUsed := Method.localOCR },
                     [Method.structural, Method.localOCR]))
  ∧ (∀ t v, p.structural = MethodOutcome.ok t → isBlank t = true →
        (∀ u, p.localOCR = MethodOutcome.ok u → isBlank u = true) →
        p.cloudOCR = MethodOutcome.ok v → isBlank v = false →
        (extract p).1.status = ExtStatus.success
          ∧ (extract p).1.methodUsed = Method.cloudOCR
          ∧ (extract p).1.text = some v
          ∧ (extract p).2 = [Method.structural, Method.localOCR, Method.cloudOCR]) := by
  refine ⟨?_, ?_, ?_⟩
  · intro t hs hb
    simp [extract, hs, hb]
  · intro t u hs hb hl hu
    simp [extract, hs, hb, extractLocal, hl, hu]
  · intro t v hs hb hl hc hv
    cases hlo : p.localOCR with
    | ok u =>
        have hu := hl u hlo
        simp [extract, hs, hb, extractLocal, hlo, hu, extractCloud, hc, hv]
    | exn m =>
        simp [extract, hs, hb, extractLocal, hlo, extractCloud, hc, hv]
    | configErr m =>
        simp [extract, hs, hb, extractLocal, hlo, extractCloud, hc, hv]

/-- C1 witness: concrete evaluations through the three parts of the
theorem. -/
theorem c1_witness :
    extract { structural := MethodOutcome.ok ("hi"), localOCR := MethodOutcome.exn ("x"),
              cloudOCR := MethodOutcome.exn ("y") }
      = ({ status := ExtStatus.success, text := some ("hi"), errorDetail := none,
           methodUsed := Method.structural }, [Method.structural])
  ∧ extract { structural := MethodOutcome.ok (""), localOCR := MethodOutcome.ok ("ocr"),
              cloudOCR := MethodOutcome.exn ("y") }
      = ({ status := ExtStatus.success, text := some ("ocr"), errorDetail := none,
           methodUsed := Method.localOCR }, [Method.structural, Method.localOCR])
  ∧ (extract { structural := MethodOutcome.ok (""), localOCR := MethodOutcome.exn ("x"),
               cloudOCR := MethodOutcome.ok ("cloud") }).1.methodUsed = Method.cloudOCR := by
  refine ⟨?_, ?_, ?_⟩
  · exact (c1_extract_fallback_chain _).1 ("hi") rfl (by decide)
  · exact (c1_extract_fallback_chain _).2.1 ("") ("ocr") rfl (by decide) rfl (by decide)
  · exact ((c1_extract_fallback_chain _).2.2 ("") ("cloud") rfl (by decide)
      (fun u hu => by simp at hu) rfl (by decide)).2.1

/-- C2: every ExtractionResult produced by extract is a proper tagged union:
its text is present and non-empty exactly when the status is Success, its
text is the empty string exactly when the status is EmptyText, and its text
is absent exactly when the status is Failure. -/
theorem c2_extraction_result_tagged_union (p : PdfSource) :
    ((∃ s, (extract p).1.text = some s ∧ s ≠ "") ↔ (extract p).1.status = ExtStatus.success)
  ∧ ((extract p).1.text = some ("") ↔ (extract p).1.status = ExtStatus.emptyText)
  ∧ ((extract p).1.text = none ↔ (extract p).1.status = ExtStatus.failure) := by
  obtain ⟨ps, pl, pc⟩ := p
  cases ps <;> cases pl <;> cases pc <;>
    simp only [extract, extractLocal, extractCloud, afterAllMethods] <;>
    (try split_ifs) <;>
    simp_all <;>
    (rename_i h _ _; exact ne_empty_of_isBlank_false (by simp_all))

/-- C5: when all three extraction methods run without throwing but yield
only whitespace, extract returns EmptyText (never Failure) with the explicit
empty-string marker, and downstream the empty payload renders as a visible
italic placeholder paragraph naming the source file rather than being
dropped. -/
theorem c5_blank_pdf_is_empty_text (p : PdfSource) (t u v : String)
    (hs : p.structural = MethodOutcome.ok t) (ht : isBlank t = true)
    (hl : p.localOCR = MethodOutcome.ok u) (hu : isBlank u = true)
    (hc : p.cloudOCR = MethodOutcome.ok v) (hv : isBlank v = true) :
    (extract p).1.status = ExtStatus.emptyText
  ∧ ¬ (extract p).1.status = ExtStatus.failure
  ∧ (extract p).1.text = some ("")
  ∧ (∀ name, buildParas "" name
      = [{ text := placeholderText name, italic := true, rtl := true,
           alignment := Align.right }]) := by
  have h : (extract p).1 = { status := ExtStatus.emptyText, text := some (""),
                             errorDetail := none, methodUsed := Method.none } := by
    simp [extract, hs, ht, extractLocal, hl, hu, extractCloud, hc, hv, afterAllMethods]
  rw [h]
  exact ⟨rfl, by simp, rfl, fun name => by simp [buildParas]⟩

/-- C5 witness: a PDF whose three methods all return whitespace-only text. -/
theorem c5_witness :
    (extract { structural := MethodOutcome.ok (""), localOCR := MethodOutcome.ok (" "),
               cloudOCR := MethodOutcome.ok ("\n") }).1.status = ExtStatus.emptyText := by
  exact (c5_blank_pdf_is_empty_text _ ("") (" ") ("\n") rfl (by decide) rfl (by decide)
    rfl (by decide)).1

/-- A file that extracts fine, is translated by Gemini, and is appended. -/
def fileA : FileEnv :=
  { name := ("a.pdf"), extractCall := ExtractCall.returned (some ("hello")),
    geminiCall := GeminiCall.returned (some ("translated")),
    appendCall := AppendCall.returned true }

/-- A file that extracts fine but whose Gemini call throws: `app.py` degrades
its contribution to the empty string and appends a placeholder for it. -/
def fileB : FileEnv :=
  { name := ("b.pdf"), extractCall := ExtractCall.returned (some ("hello")),
    geminiCall := GeminiCall.threw ("boom"),
    appendCall := AppendCall.returned true }

/-- A file whose append call reports failure. -/
def fileC : FileEnv :=
  { name := ("c.pdf"), extractCall := ExtractCall.returned (some ("hello")),
    geminiCall := GeminiCall.returned (some ("translated")),
    appendCall := AppendCall.returned false }

lemma geminiStep_placeholder (raw : String) (gc : GeminiCall) :
    (geminiStep raw gc).2 = true → (geminiStep raw gc).1 = "" := by
  rw [geminiStep.eq_def]
  split_ifs with h
  · intro hc
    exact absurd hc (by decide)
  · cases gc with
    | threw m => intro _; rfl
    | returned r =>
        cases r with
        | none => intro _; rfl
        | some t =>
            dsimp only
            split_ifs with h2
            · intro _; rfl
            · intro hc
              exact absurd hc (by decide)

lemma processBatch_map (envs : List FileEnv) :
    (processBatch envs).1 = envs.map processFile := by
  induction envs with
  | nil => rfl
  | cons e es ih => simp [processBatch, ih]

lemma processBatch_count (envs : List FileEnv) :
    (processBatch envs).2 = ((processBatch envs).1).countP (fun r => r.appended) := by
  induction envs with
  | nil => rfl
  | cons e es ih =>
      show (if (processFile e).appended then 1 else 0) + (processBatch es).2
          = (processFile e :: (processBatch es).1).countP (fun r => r.appended)
      rw [List.countP_cons, ih]
      cases h : (processFile e).appended <;> simp [h]
      omega

/-- C6 counterexample: in the two-file batch [fileA, fileB], fileB has a
Gemini (transform) failure, so it is appended as a placeholder; the
end-of-batch summary count `files_successfully_appended` is 2 although only
1 of the 2 source files contributed real content — the summary does not
report the number of files that contributed real content. -/
theorem c6_counterexample :
    (processBatch [fileA, fileB]).2 = 2
  ∧ realContentCount [fileA, fileB] = 1
  ∧ ¬ ((processBatch [fileA, fileB]).2 = realContentCount [fileA, fileB]) := by
  decide

/-- C6 amended: per-file errors never abort the batch — every file of the
batch gets its report, computed from that file alone, and a leading file
never stops the rest; a Gemini (transform) failure degrades the file's
contribution to the empty string, which is appended as a placeholder; a file
whose append fails is skipped while the rest are still composed; and the
end-of-batch summary reports the number of files successfully appended
(placeholder contributions included), not the number that contributed real
content. -/
theorem c6_batch_error_isolation (envs : List FileEnv) (e : FileEnv) :
    (processBatch envs).1 = envs.map processFile
  ∧ ((processBatch envs).1).length = envs.length
  ∧ (processBatch (e :: envs)).1 = processFile e :: (processBatch envs).1
  ∧ ((processFile e).geminiError = true → (processFile e).processedText = "")
  ∧ ((processFile e).appendError = true → (processFile e).appended = false)
  ∧ (processBatch envs).2 = ((processBatch envs).1).countP (fun r => r.appended) := by
  refine ⟨processBatch_map envs, ?_, rfl, ?_, ?_, processBatch_count envs⟩
  · rw [processBatch_map, List.length_map]
  · cases he : e.extractCall with
    | threw m => simp [processFile, he, skippedReport]
    | returned r =>
        cases r with
        | none => simp [processFile, he, skippedReport]
        | some raw =>
            simp only [processFile, he]
            split_ifs with h1
            · simp [skippedReport]
            · cases ha : e.appendCall with
              | threw m => exact geminiStep_placeholder raw e.geminiCall
              | returned ok => exact geminiStep_placeholder raw e.geminiCall
  · cases he : e.extractCall with
    | threw m => simp [processFile, he, skippedReport]
    | returned r =>
        cases r with
        | none => simp [processFile, he, skippedReport]
        | some raw =>
            simp only [processFile, he]
            split_ifs with h1
            · simp [skippedReport]
            · cases ha : e.appendCall with
              | threw m => simp
              | returned ok => simp

/-- C6 witness: concrete instances of the error-degradation conclusions. -/
theorem c6_witness :
    (processFile fileB).processedText = "" ∧ (processFile fileC).appended = false := by
  exact ⟨(c6_batch_error_isolation [] fileB).2.2.2.1 (by decide),
         (c6_batch_error_isolation [] fileC).2.2.2.2.1 (by decide)⟩

end UrduPdf
